import Mathlib

set_option maxHeartbeats 1000000

/-!
Verification of the QHRF GUI analyzer core (`ibm_job-analyzer.py`): the
experiment-record parser and the derived-metric computations, embedded
shallowly.  Python floats are modelled as exact rationals.  Python's true
division `a / b` raises (ints) or yields a non-finite value (numpy floats)
on a zero denominator, which Lean's total `x / 0 = 0` convention does not
match; wherever a denominator can be zero the embedding makes that case
explicit (an `Except` error, or a recorded finiteness flag).  Python dicts
preserve insertion order, so `raw_counts` is an association list.
-/

/-- JSON-level experiment fields.  Every recognized key is optional
(`none` = key absent), mirroring the `exp_data.get(...)` reads in
`parse_experiment_data` (source lines 425-441). -/
structure ExpData where
  job_id : Option String := none
  backend_name : Option String := none
  shots : Option Nat := none
  execution_time : Option ℚ := none
  circuit_depth : Option Nat := none
  raw_counts : Option (List (String × Nat)) := none
  shannon_entropy : Option ℚ := none
  coherence_score : Option ℚ := none
  qhrf_signature_strength : Option ℚ := none
  classical_suppression : Option ℚ := none
  dominant_state : Option (String × ℚ) := none
  unique_states : Option Nat := none
  parity_balance : Option ℚ := none
  participation_ratio : Option ℚ := none
  deriving DecidableEq, Repr

/-- The parsed experiment record (dataclass `QHRFExperiment`, source lines 30-48). -/
structure QHRFExperiment where
  name : String
  job_id : String
  backend : String
  shots : Nat
  execution_time : ℚ
  circuit_depth : Nat
  raw_counts : List (String × Nat)
  shannon_entropy : ℚ
  coherence_score : ℚ
  qhrf_signature_strength : ℚ
  classical_suppression : ℚ
  dominant_state : String × ℚ
  unique_states : Nat
  parity_balance : ℚ
  participation_ratio : ℚ
  file_path : String
  deriving DecidableEq, Repr

/-- `os.path.basename` on a POSIX path: the component after the last slash
(source line 422), computed by a character fold that restarts at each
slash. -/
def basename (p : String) : String :=
  String.mk (p.toList.foldl (fun acc c => if c = '/' then [] else acc.concat c) [])

/-- Field extraction with defaults, from the body of `parse_experiment_data`
(source lines 421-442).  Note line 423: `exp_data.get('job_id', file_name)[:12]`
applies the 12-character truncation to the file-name fallback as well. -/
def parseFields (d : ExpData) (file_path : String) : QHRFExperiment :=
  { name := ((d.job_id).getD (basename file_path)).take 12
    job_id := (d.job_id).getD "Unknown"
    backend := (d.backend_name).getD "Unknown"
    shots := (d.shots).getD 0
    execution_time := (d.execution_time).getD 0
    circuit_depth := (d.circuit_depth).getD 0
    raw_counts := (d.raw_counts).getD []
    shannon_entropy := (d.shannon_entropy).getD 0
    coherence_score := (d.coherence_score).getD 0
    qhrf_signature_strength := (d.qhrf_signature_strength).getD 0
    classical_suppression := (d.classical_suppression).getD 0
    dominant_state := (d.dominant_state).getD ("0000", 0)
    unique_states := (d.unique_states).getD 0
    parity_balance := (d.parity_balance).getD 0
    participation_ratio := (d.participation_ratio).getD 0
    file_path := file_path }

/-- An input JSON document: either the experiment fields wrapped under the
single known key `experiment_result`, or the fields at top level
(source lines 416-419). -/
inductive JsonDoc where
  | wrapped (inner : ExpData)
  | plain (fields : ExpData)
  deriving DecidableEq, Repr

/-- The unwrap step of `parse_experiment_data` (source lines 416-419):
take `data['experiment_result']` when the wrapper key is present, else the
top level as-is. -/
def unwrapDoc (doc : JsonDoc) : ExpData :=
  match doc with
  | .wrapped e => e
  | .plain e => e

/-- `parse_experiment_data` (source lines 412-446).  On well-typed field
data no exception can occur, so the `Optional` result is always `some`;
the `except` branch (line 444) is only reachable from ill-typed values,
which the typed embedding cannot represent. -/
def parse_experiment_data (doc : JsonDoc) (file_path : String) : Option QHRFExperiment :=
  some (parseFields (unwrapDoc doc) file_path)

/-- The document with every recognized key absent. -/
def emptyExpData : ExpData := {}

/-- Claim C2 counterexample: with `job_id` absent and base name
`verylongbasename.json` (21 characters, no slash), the parsed record's
name is the 12-character truncation `verylongbase`, not the full base
name as the claim states. -/
theorem C2_counterexample :
    (parseFields emptyExpData "verylongbasename.json").name = "verylongbase" ∧
    (parseFields emptyExpData "verylongbasename.json").name ≠
      basename "verylongbasename.json" := by
  constructor
  · rfl
  · decide

/-- Claim C2 (amended): the record's display name is the first 12
characters of the job id when present, and the first 12 characters of the
file's base name when the job id is absent (the truncation applies to the
fallback too). -/
theorem C2_amended (d : ExpData) (p : String) :
    (parseFields d p).name =
      match d.job_id with
      | some j => j.take 12
      | none => (basename p).take 12 := by
  cases h : d.job_id <;> simp [parseFields, h]

/-- Claim C5: parsing succeeds on every document, and each absent field
takes its documented default: 0 for shots/circuit_depth/unique_states,
0 for the numeric metrics, the empty mapping for raw_counts, "Unknown"
for job_id and backend, and the pair ("0000", 0) for dominant_state. -/
theorem C5_defaults (d : ExpData) (p : String) :
    parse_experiment_data (JsonDoc.plain d) p = some (parseFields d p) ∧
    (d.shots = none → (parseFields d p).shots = 0) ∧
    (d.circuit_depth = none → (parseFields d p).circuit_depth = 0) ∧
    (d.unique_states = none → (parseFields d p).unique_states = 0) ∧
    (d.execution_time = none → (parseFields d p).execution_time = 0) ∧
    (d.shannon_entropy = none → (parseFields d p).shannon_entropy = 0) ∧
    (d.coherence_score = none → (parseFields d p).coherence_score = 0) ∧
    (d.qhrf_signature_strength = none → (parseFields d p).qhrf_signature_strength = 0) ∧
    (d.classical_suppression = none → (parseFields d p).classical_suppression = 0) ∧
    (d.parity_balance = none → (parseFields d p).parity_balance = 0) ∧
    (d.participation_ratio = none → (parseFields d p).participation_ratio = 0) ∧
    (d.raw_counts = none → (parseFields d p).raw_counts = []) ∧
    (d.job_id = none → (parseFields d p).job_id = "Unknown") ∧
    (d.backend_name = none → (parseFields d p).backend = "Unknown") ∧
    (d.dominant_state = none → (parseFields d p).dominant_state = ("0000", 0)) := by
  refine ⟨rfl, ?_, ?_, ?_, ?_, ?_, ?_, ?_, ?_, ?_, ?_, ?_, ?_, ?_, ?_⟩ <;>
    intro h <;> simp [parseFields, h]

/-- Claim C5 witness: the all-absent document at a concrete path parses to
the all-defaults record. -/
theorem C5_defaults_witness :
    emptyExpData.shots = none ∧ (parseFields emptyExpData "exp.json").shots = 0 ∧
    emptyExpData.dominant_state = none ∧
    (parseFields emptyExpData "exp.json").dominant_state = ("0000", 0) :=
  ⟨rfl, (C5_defaults emptyExpData "exp.json").2.1 rfl, rfl,
    (C5_defaults emptyExpData "exp.json").2.2.2.2.2.2.2.2.2.2.2.2.2.2 rfl⟩

/-- Claim C6: parsing a document wrapped under the known wrapper key with
source path `p` yields the same record as parsing the fields directly with
source path `p` (here the provenance is also identical, since the path is
the same). -/
theorem C6_wrapper (d : ExpData) (p : String) :
    parse_experiment_data (JsonDoc.wrapped d) p =
      parse_experiment_data (JsonDoc.plain d) p := rfl

/-- Entropy efficiency: `shannon_entropy / 4` (source lines 496 and
721-722; 4 is the fixed bit-width ceiling of the 4-qubit system). -/
def entropy_efficiency (e : QHRFExperiment) : ℚ :=
  e.shannon_entropy / 4

/-- Claim C9: entropy efficiency equals shannon_entropy divided by the
fixed constant 4; in particular shannon_entropy 3.2 gives exactly 0.8. -/
theorem C9_entropy_efficiency (e : QHRFExperiment) :
    entropy_efficiency e * 4 = e.shannon_entropy ∧
    (e.shannon_entropy = 16/5 → entropy_efficiency e = 4/5) := by
  constructor
  · exact div_mul_cancel₀ e.shannon_entropy (by norm_num)
  · intro h
    rw [entropy_efficiency, h]
    norm_num

/-- A concrete record with shannon_entropy 3.2 (= 16/5). -/
def expA : QHRFExperiment :=
  parseFields { shannon_entropy := some (16/5) } "a.json"

/-- Claim C9 witness: the concrete record with shannon_entropy 3.2 has
entropy efficiency exactly 0.8. -/
theorem C9_entropy_efficiency_witness :
    expA.shannon_entropy = 16/5 ∧ entropy_efficiency expA = 4/5 :=
  ⟨rfl, (C9_entropy_efficiency expA).2 rfl⟩

/-- The six boolean assessment criteria against fixed thresholds
(source lines 527-541, identically lines 1277-1284). -/
def criteria (e : QHRFExperiment) : List (String × Bool) :=
  [("Shannon Entropy > 3.0", decide (e.shannon_entropy > 3)),
   ("Coherence Score > 0.3", decide (e.coherence_score > 3/10)),
   ("QHRF Signature > 0.4", decide (e.qhrf_signature_strength > 2/5)),
   ("|0101> Dominance > 0.2", decide (e.dominant_state.2 > 1/5)),
   ("Classical Suppression > 0.9", decide (e.classical_suppression > 9/10)),
   ("All 16 States Observed", decide (e.unique_states = 16))]

/-- `passed = sum(score for _, score in criteria)` (source lines 543,
1286): the number of criteria that hold. -/
def passedCount (e : QHRFExperiment) : Nat :=
  (criteria e).countP (fun c => c.2)

/-- `success_rate = (passed / len(criteria)) * 100` (source lines 550,
1287). -/
def success_rate (e : QHRFExperiment) : ℚ :=
  (passedCount e : ℚ) / ((criteria e).length : ℚ) * 100

/-- The qualitative performance tier (source lines 553-558, 1312-1317). -/
def performance_tier (e : QHRFExperiment) : String :=
  if success_rate e ≥ 90 then "EXCELLENT"
  else if success_rate e ≥ 75 then "GOOD"
  else "MODERATE"

/-- Claim C4: the assessment evaluates exactly six boolean criteria,
success_rate is passed/6*100, the tier is EXCELLENT at ≥ 90, GOOD at
≥ 75, else MODERATE; exactly 5 passing criteria give success rate
83.33...% (= 250/3) and tier GOOD. -/
theorem C4_assessment (e : QHRFExperiment) :
    (criteria e).length = 6 ∧
    success_rate e = (passedCount e : ℚ) / 6 * 100 ∧
    (passedCount e = 5 → success_rate e = 250/3 ∧ performance_tier e = "GOOD") ∧
    (performance_tier e = "EXCELLENT" ↔ 90 ≤ success_rate e) ∧
    (performance_tier e = "GOOD" ↔ 75 ≤ success_rate e ∧ success_rate e < 90) := by
  have hlen : (criteria e).length = 6 := rfl
  have hsr : success_rate e = (passedCount e : ℚ) / 6 * 100 := by
    rw [success_rate, hlen]
    norm_num
  refine ⟨hlen, hsr, ?_, ?_, ?_⟩
  · intro h5
    have : success_rate e = 250/3 := by rw [hsr, h5]; norm_num
    refine ⟨this, ?_⟩
    rw [performance_tier, this]
    norm_num
  · rw [performance_tier]
    split_ifs with h1 h2
    · simpa using h1
    · simp only [ge_iff_le] at h1 h2
      constructor
      · intro hs
        exact absurd hs (by decide)
      · intro hs
        exact absurd hs h1
    · simp only [ge_iff_le] at h1 h2
      constructor
      · intro hs
        exact absurd hs (by decide)
      · intro hs
        exact absurd hs h1
  · rw [performance_tier]
    split_ifs with h1 h2
    · simp only [ge_iff_le] at h1
      constructor
      · intro hs
        exact absurd hs (by decide)
      · rintro ⟨-, hlt⟩
        exact absurd h1 (not_le.mpr hlt)
    · simp only [ge_iff_le, not_le] at h1 h2
      simp only [true_iff]
      exact ⟨h2, h1⟩
    · simp only [ge_iff_le, not_le] at h1 h2
      constructor
      · intro hs
        exact absurd hs (by decide)
      · rintro ⟨hge, -⟩
        exact absurd hge (not_le.mpr h2)

/-- A concrete record passing exactly 5 of the 6 criteria (all but
`unique_states == 16`). -/
def expB : QHRFExperiment :=
  parseFields
    { shannon_entropy := some (7/2), coherence_score := some (1/2),
      qhrf_signature_strength := some (1/2), dominant_state := some ("0101", 1/2),
      classical_suppression := some (19/20) } "b.json"

/-- Claim C4 witness: the concrete 5-of-6 record has success rate 250/3
and tier GOOD. -/
theorem C4_assessment_witness :
    passedCount expB = 5 ∧ success_rate expB = 250/3 ∧ performance_tier expB = "GOOD" := by
  have h5 : passedCount expB = 5 := by
    norm_num [passedCount, criteria, expB, parseFields]
  exact ⟨h5, ((C4_assessment expB).2.2.1 h5).1, ((C4_assessment expB).2.2.1 h5).2⟩

/-- `np.mean` over exact rationals: sum divided by length (source lines
1081, 1083). -/
def npMean (xs : List ℚ) : ℚ :=
  xs.sum / (xs.length : ℚ)

/-- The population variance, i.e. the square of `np.std` (source lines
1082, 1084; `np.std` is the population standard deviation).  The standard
deviation itself is irrational in general, so the embedding carries the
variance and takes the square root only on the real-number side. -/
def npVarP (xs : List ℚ) : ℚ :=
  (xs.map (fun x => (x - npMean xs) ^ 2)).sum / (xs.length : ℚ)

/-- `coherence_scores` (source line 1040). -/
def coherenceScores (exps : List QHRFExperiment) : List ℚ :=
  exps.map (fun e => e.coherence_score)

/-- `dominant_probs` (source lines 1043-1044): the dominant-state
probability when the dominant label is literally `0101`, else 0. -/
def dominantProbs (exps : List QHRFExperiment) : List ℚ :=
  exps.map (fun e => if e.dominant_state.1 = "0101" then e.dominant_state.2 else 0)

/-- Decides the float comparison `std/mean < c` of source line 1103 over
`(variance, mean)`: for `μ > 0` it is `v < c²μ²` (threshold `c > 0`); for
`μ < 0` it always holds (`std ≥ 0`, so `std/μ ≤ 0 < c`); for `μ = 0` the
IEEE quotient is `nan` or `+inf` (numpy emits a warning, not an error) and
every `<` comparison against it is false. -/
def cvLt (v μ c : ℚ) : Bool :=
  if 0 < μ then decide (v < c ^ 2 * μ ^ 2) else decide (μ < 0)

/-- The reproducibility grade of source line 1103:
`'EXCELLENT' if std/mean < 0.1 else 'GOOD' if std/mean < 0.2 else
'MODERATE'`, phrased over (variance, mean) via `cvLt`. -/
def reproTier (v μ : ℚ) : String :=
  if cvLt v μ (1/10) then "EXCELLENT"
  else if cvLt v μ (1/5) then "GOOD"
  else "MODERATE"

/-- Outcome of the comparison operation.  `degenerateStatistics` is the
condition named by the spec's error taxonomy; the code has no such branch,
so no run of `compare_experiments` produces it — it is included so that
its absence is statable.  The `stats` constructor carries the computed
means and population variances and, for each of the two CV divisions, a
flag recording whether the divisor mean was nonzero (i.e. whether the
displayed CV percentage is a finite number rather than nan/inf). -/
inductive CompareOutcome where
  | insufficientData : CompareOutcome
  | degenerateStatistics : CompareOutcome
  | stats (coherenceMean coherenceVarP : ℚ) (coherenceCVFinite : Bool)
      (dominantMean dominantVarP : ℚ) (dominantCVFinite : Bool)
      (tier : String) : CompareOutcome
  deriving DecidableEq, Repr

/-- `compare_experiments` (source lines 1024-1112): refuse with a warning
below 2 records (lines 1026-1028), else compute the comparison statistics
of lines 1081-1103.  The record list itself is never modified. -/
def compare_experiments (exps : List QHRFExperiment) : CompareOutcome :=
  if exps.length < 2 then .insufficientData
  else
    .stats (npMean (coherenceScores exps)) (npVarP (coherenceScores exps))
      (decide (npMean (coherenceScores exps) ≠ 0))
      (npMean (dominantProbs exps)) (npVarP (dominantProbs exps))
      (decide (npMean (dominantProbs exps) ≠ 0))
      (reproTier (npVarP (coherenceScores exps)) (npMean (coherenceScores exps)))

/-- Outcome of the timeline operation. -/
inductive TimelineOutcome where
  | insufficientData : TimelineOutcome
  | timeline (coherences entropies : List ℚ) : TimelineOutcome
  deriving DecidableEq, Repr

/-- `plot_timeline` (source lines 1114-1129): refuse with a warning below
2 records (lines 1116-1118), else plot the per-record coherence scores and
entropies against the record index. -/
def plot_timeline (exps : List QHRFExperiment) : TimelineOutcome :=
  if exps.length < 2 then .insufficientData
  else .timeline (exps.map (fun e => e.coherence_score)) (exps.map (fun e => e.shannon_entropy))

/-- Claim C8: with fewer than 2 loaded records, both the compare and the
timeline operations signal InsufficientData and compute no statistics
(neither operation ever modifies the loaded-record list, which the
embedding reflects by taking the list as a pure argument). -/
theorem C8_insufficient_data (exps : List QHRFExperiment) (h : exps.length < 2) :
    compare_experiments exps = CompareOutcome.insufficientData ∧
    plot_timeline exps = TimelineOutcome.insufficientData := by
  constructor <;> simp [compare_experiments, plot_timeline, h]

/-- Claim C8 witness: a single loaded record. -/
theorem C8_insufficient_data_witness :
    ([expA] : List QHRFExperiment).length < 2 ∧
    compare_experiments [expA] = CompareOutcome.insufficientData ∧
    plot_timeline [expA] = TimelineOutcome.insufficientData := by
  have h : ([expA] : List QHRFExperiment).length < 2 := by decide
  exact ⟨h, (C8_insufficient_data [expA] h).1, (C8_insufficient_data [expA] h).2⟩

/-- Claim C1 counterexample: two records with coherence_score 0 (so the
mean is 0).  The comparison operation does not signal DegenerateStatistics
— it produces the statistics outcome, with the CV division performed at a
zero mean (non-finite, flagged `false`) and tier MODERATE. -/
theorem C1_counterexample :
    compare_experiments [parseFields emptyExpData "a.json", parseFields emptyExpData "b.json"] ≠
      CompareOutcome.degenerateStatistics ∧
    compare_experiments [parseFields emptyExpData "a.json", parseFields emptyExpData "b.json"] =
      CompareOutcome.stats 0 0 false 0 0 false "MODERATE" := by
  have hstats : compare_experiments [parseFields emptyExpData "a.json", parseFields emptyExpData "b.json"] =
      CompareOutcome.stats 0 0 false 0 0 false "MODERATE" := by
    norm_num [compare_experiments, npMean, npVarP, coherenceScores, dominantProbs,
      reproTier, cvLt, parseFields, emptyExpData]
  exact ⟨by rw [hstats]; exact fun h => CompareOutcome.noConfusion h, hstats⟩

/-- Claim C1 (amended): the comparison operation never signals a
DegenerateStatistics condition.  When the mean coherence_score over ≥ 2
records is zero, it still produces the statistics outcome: the division of
the standard deviation by the zero mean is performed unguarded, the
coherence CV is non-finite (flagged `false`), and the reproducibility tier
falls to MODERATE (nan/inf compare false against both thresholds). -/
theorem C1_no_degenerate_signal (exps : List QHRFExperiment) (h2 : 2 ≤ exps.length)
    (h0 : npMean (coherenceScores exps) = 0) :
    compare_experiments exps ≠ CompareOutcome.degenerateStatistics ∧
    compare_experiments exps =
      CompareOutcome.stats 0 (npVarP (coherenceScores exps)) false
        (npMean (dominantProbs exps)) (npVarP (dominantProbs exps))
        (decide (npMean (dominantProbs exps) ≠ 0)) "MODERATE" := by
  have hlen : ¬ exps.length < 2 := by omega
  have htier : reproTier (npVarP (coherenceScores exps)) 0 = "MODERATE" := by
    simp [reproTier, cvLt]
  have hstats : compare_experiments exps =
      CompareOutcome.stats 0 (npVarP (coherenceScores exps)) false
        (npMean (dominantProbs exps)) (npVarP (dominantProbs exps))
        (decide (npMean (dominantProbs exps) ≠ 0)) "MODERATE" := by
    rw [compare_experiments, if_neg hlen, h0, htier]
    simp
  exact ⟨by rw [hstats]; exact fun h => CompareOutcome.noConfusion h, hstats⟩

/-- Claim C1 amended-theorem witness: the concrete zero-mean pair. -/
theorem C1_no_degenerate_signal_witness :
    2 ≤ ([parseFields emptyExpData "a.json", parseFields emptyExpData "b.json"] : List QHRFExperiment).length ∧
    npMean (coherenceScores [parseFields emptyExpData "a.json", parseFields emptyExpData "b.json"]) = 0 ∧
    compare_experiments [parseFields emptyExpData "a.json", parseFields emptyExpData "b.json"] ≠
      CompareOutcome.degenerateStatistics := by
  have h0 : npMean (coherenceScores [parseFields emptyExpData "a.json", parseFields emptyExpData "b.json"]) = 0 := by
    norm_num [npMean, coherenceScores, parseFields, emptyExpData]
  exact ⟨by decide, h0,
    (C1_no_degenerate_signal [parseFields emptyExpData "a.json", parseFields emptyExpData "b.json"]
      (by decide) h0).1⟩

/-- Spec-side (the spec's words, over the reals): the arithmetic mean. -/
noncomputable def spec_mean (xs : List ℝ) : ℝ :=
  xs.sum / (xs.length : ℝ)

/-- Spec-side: the population variance. -/
noncomputable def spec_popVar (xs : List ℝ) : ℝ :=
  (xs.map (fun x => (x - spec_mean xs) ^ 2)).sum / (xs.length : ℝ)

/-- Spec-side: the population standard deviation. -/
noncomputable def spec_popStd (xs : List ℝ) : ℝ :=
  Real.sqrt (spec_popVar xs)

/-- Spec-side: the coefficient of variation, std divided by mean. -/
noncomputable def spec_cv (xs : List ℝ) : ℝ :=
  spec_popStd xs / spec_mean xs

open Classical in
/-- Spec-side: the reproducibility tier from the CV thresholds
(CV < 0.10 excellent, < 0.20 good, else moderate). -/
noncomputable def spec_tier (cv : ℝ) : String :=
  if cv < 1/10 then "EXCELLENT"
  else if cv < 1/5 then "GOOD"
  else "MODERATE"

/-- The list of rationals viewed as real numbers. -/
noncomputable def toReals (xs : List ℚ) : List ℝ :=
  xs.map (Rat.cast : ℚ → ℝ)

/-- Casting commutes with the mean. -/
theorem cast_npMean (xs : List ℚ) :
    ((npMean xs : ℚ) : ℝ) = spec_mean (toReals xs) := by
  rw [npMean, spec_mean, toReals, List.length_map, Rat.cast_div, Rat.cast_list_sum]
  norm_cast

/-- Casting commutes with the population variance. -/
theorem cast_npVarP (xs : List ℚ) :
    ((npVarP xs : ℚ) : ℝ) = spec_popVar (toReals xs) := by
  have hm : ((npMean xs : ℚ) : ℝ) = spec_mean (toReals xs) := cast_npMean xs
  rw [toReals] at hm
  rw [npVarP, spec_popVar, toReals, List.length_map, List.map_map, Rat.cast_div,
    Rat.cast_list_sum, List.map_map]
  congr 1
  · congr 1
    apply List.map_congr_left
    intro a _
    simp only [Function.comp_apply]
    rw [← hm]
    push_cast
    ring

/-- The population variance is nonnegative. -/
theorem npVarP_nonneg (xs : List ℚ) : 0 ≤ npVarP xs := by
  rw [npVarP]
  apply div_nonneg
  · apply List.sum_nonneg
    intro x hx
    simp only [List.mem_map] at hx
    obtain ⟨a, -, rfl⟩ := hx
    positivity
  · positivity

/-- The rational test `cvLt v μ c` decides the real comparison
`sqrt v / μ < c` whenever the variance is nonnegative, the threshold
positive and the mean nonzero. -/
theorem cvLt_iff (v μ c : ℚ) (hc : 0 < c) (hμ : μ ≠ 0) :
    cvLt v μ c = true ↔ Real.sqrt ((v : ℚ) : ℝ) / ((μ : ℚ) : ℝ) < ((c : ℚ) : ℝ) := by
  rcases hμ.lt_or_lt with hneg | hpos
  · have hR : Real.sqrt ((v : ℚ) : ℝ) / ((μ : ℚ) : ℝ) < ((c : ℚ) : ℝ) := by
      have h1 : Real.sqrt ((v : ℚ) : ℝ) / ((μ : ℚ) : ℝ) ≤ 0 := by
        apply div_nonpos_of_nonneg_of_nonpos (Real.sqrt_nonneg _)
        exact_mod_cast hneg.le
      have h2 : (0 : ℝ) < ((c : ℚ) : ℝ) := by exact_mod_cast hc
      exact lt_of_le_of_lt h1 h2
    have hL : cvLt v μ c = true := by
      rw [cvLt, if_neg (by exact not_lt.mpr hneg.le)]
      exact decide_eq_true hneg
    simp [hL, hR]
  · have hμR : (0 : ℝ) < ((μ : ℚ) : ℝ) := by exact_mod_cast hpos
    have hcm : (0 : ℝ) < ((c : ℚ) : ℝ) * ((μ : ℚ) : ℝ) :=
      mul_pos (by exact_mod_cast hc) hμR
    have hL : cvLt v μ c = decide (v < c ^ 2 * μ ^ 2) := by
      rw [cvLt, if_pos hpos]
    rw [hL, decide_eq_true_eq, div_lt_iff₀ hμR, Real.sqrt_lt' hcm]
    have hsq : (((c : ℚ) : ℝ) * ((μ : ℚ) : ℝ)) ^ 2 = ((c ^ 2 * μ ^ 2 : ℚ) : ℝ) := by
      push_cast
      ring
    rw [hsq]
    exact ⟨fun h => by exact_mod_cast h, fun h => by exact_mod_cast h⟩

/-- Claim C3: for ≥ 2 records whose mean coherence is nonzero (the
zero-mean case is the subject of claim C1), the comparison operation
computes the mean and population standard deviation of coherence_score
and of the 0101-restricted dominant-state probability (records with any
other dominant label contributing 0), the coefficient of variation
std/mean, and the reproducibility tier EXCELLENT when CV < 0.10, GOOD
when CV < 0.20, else MODERATE — each agreeing with the spec-side
real-number definitions. -/
theorem C3_comparison_statistics (exps : List QHRFExperiment) (h2 : 2 ≤ exps.length)
    (hμ : npMean (coherenceScores exps) ≠ 0) :
    compare_experiments exps =
      CompareOutcome.stats (npMean (coherenceScores exps)) (npVarP (coherenceScores exps)) true
        (npMean (dominantProbs exps)) (npVarP (dominantProbs exps))
        (decide (npMean (dominantProbs exps) ≠ 0))
        (reproTier (npVarP (coherenceScores exps)) (npMean (coherenceScores exps))) ∧
    ((npMean (coherenceScores exps) : ℚ) : ℝ) = spec_mean (toReals (coherenceScores exps)) ∧
    ((npMean (dominantProbs exps) : ℚ) : ℝ) = spec_mean (toReals (dominantProbs exps)) ∧
    Real.sqrt ((npVarP (coherenceScores exps) : ℚ) : ℝ) =
      spec_popStd (toReals (coherenceScores exps)) ∧
    Real.sqrt ((npVarP (dominantProbs exps) : ℚ) : ℝ) =
      spec_popStd (toReals (dominantProbs exps)) ∧
    reproTier (npVarP (coherenceScores exps)) (npMean (coherenceScores exps)) =
      spec_tier (spec_cv (toReals (coherenceScores exps))) := by
  have hlen : ¬ exps.length < 2 := by omega
  have hdec : decide (npMean (coherenceScores exps) ≠ 0) = true := decide_eq_true hμ
  refine ⟨?_, cast_npMean _, cast_npMean _, ?_, ?_, ?_⟩
  · rw [compare_experiments, if_neg hlen, hdec]
  · rw [spec_popStd, cast_npVarP]
  · rw [spec_popStd, cast_npVarP]
  · set v := npVarP (coherenceScores exps)
    set μ := npMean (coherenceScores exps)
    have hcv : spec_cv (toReals (coherenceScores exps)) =
        Real.sqrt ((v : ℚ) : ℝ) / ((μ : ℚ) : ℝ) := by
      rw [spec_cv, spec_popStd, ← cast_npVarP, ← cast_npMean]
    have h10 : (cvLt v μ (1/10) = true) ↔
        Real.sqrt ((v : ℚ) : ℝ) / ((μ : ℚ) : ℝ) < (1/10 : ℝ) := by
      have h := cvLt_iff v μ (1/10) (by norm_num) hμ
      rwa [show (((1/10 : ℚ) : ℚ) : ℝ) = (1/10 : ℝ) by norm_num] at h
    have h5 : (cvLt v μ (1/5) = true) ↔
        Real.sqrt ((v : ℚ) : ℝ) / ((μ : ℚ) : ℝ) < (1/5 : ℝ) := by
      have h := cvLt_iff v μ (1/5) (by norm_num) hμ
      rwa [show (((1/5 : ℚ) : ℚ) : ℝ) = (1/5 : ℝ) by norm_num] at h
    rw [reproTier, spec_tier, hcv]
    by_cases hA : Real.sqrt ((v : ℚ) : ℝ) / ((μ : ℚ) : ℝ) < (1/10 : ℝ)
    · rw [if_pos (h10.mpr hA), if_pos hA]
    · rw [if_neg (fun hh => hA (h10.mp hh)), if_neg hA]
      by_cases hB : Real.sqrt ((v : ℚ) : ℝ) / ((μ : ℚ) : ℝ) < (1/5 : ℝ)
      · rw [if_pos (h5.mpr hB), if_pos hB]
      · rw [if_neg (fun hh => hB (h5.mp hh)), if_neg hB]

/-- Claim C3 witness: two identical concrete records with coherence 1/2
(mean 1/2 ≠ 0); the source tier agrees with the spec-side tier there. -/
theorem C3_comparison_statistics_witness :
    2 ≤ ([expB, expB] : List QHRFExperiment).length ∧
    npMean (coherenceScores [expB, expB]) ≠ 0 ∧
    reproTier (npVarP (coherenceScores [expB, expB])) (npMean (coherenceScores [expB, expB])) =
      spec_tier (spec_cv (toReals (coherenceScores [expB, expB]))) := by
  have hμ : npMean (coherenceScores [expB, expB]) ≠ 0 := by
    norm_num [npMean, coherenceScores, expB, parseFields]
  exact ⟨by decide, hμ, (C3_comparison_statistics [expB, expB] (by decide) hμ).2.2.2.2.2⟩

/-- The per-state significance tag assigned by the display loop
(source lines 509-515).  The tag is a function of the state label alone,
so it is independent of the state's rank in the display order. -/
inductive Tag where
  | primary : Tag
  | signature : Tag
  | classical : Tag
  | other : Tag
  deriving DecidableEq, Repr

/-- The if/elif chain of source lines 510-515: the literal `0101` is
primary, `0100`/`1101` are the signature states, `0000`/`1111` the
classical states, everything else is untagged. -/
def significance (state : String) : Tag :=
  if state = "0101" then .primary
  else if state = "0100" ∨ state = "1101" then .signature
  else if state = "0000" ∨ state = "1111" then .classical
  else .other

/-- `total = sum(counts)` (source lines 504, 620, 685, 843). -/
def totalCount (rc : List (String × Nat)) : Nat :=
  (rc.map (fun x => x.2)).sum

/-- Python's `sorted(..., key=..., reverse=True)`: a stable merge sort
putting larger keys first (Python's sort is stable, also with
`reverse=True`). -/
def sortedDescBy {α β : Type} [LinearOrder β] (key : α → β) (l : List α) : List α :=
  l.mergeSort (fun a b => decide (key b ≤ key a))

/-- `sorted_states` (source line 505): the raw_counts items sorted by
count, descending. -/
def sorted_states (rc : List (String × Nat)) : List (String × Nat) :=
  sortedDescBy (fun x => x.2) rc

/-- Transitivity of the descending-key comparison. -/
theorem sortedDescBy_trans {α β : Type} [LinearOrder β] (key : α → β) :
    ∀ (a b c : α), (fun a b => decide (key b ≤ key a)) a b →
      (fun a b => decide (key b ≤ key a)) b c → (fun a b => decide (key b ≤ key a)) a c := by
  intro a b c hab hbc
  simp only [decide_eq_true_eq] at *
  exact le_trans hbc hab

/-- Totality of the descending-key comparison. -/
theorem sortedDescBy_total {α β : Type} [LinearOrder β] (key : α → β) :
    ∀ (a b : α), ((fun a b => decide (key b ≤ key a)) a b ||
      (fun a b => decide (key b ≤ key a)) b a) := by
  intro a b
  simp only [Bool.or_eq_true, decide_eq_true_eq]
  exact le_total (key b) (key a)

/-- Stability of the display sort: the states of any fixed count keep
their original relative (insertion) order. -/
theorem sorted_states_stable (rc : List (String × Nat)) (c : Nat) :
    (sorted_states rc).filter (fun x => x.2 == c) = rc.filter (fun x => x.2 == c) := by
  have hperm : (sorted_states rc).Perm rc := List.mergeSort_perm rc _
  have hpw : (rc.filter (fun x => x.2 == c)).Pairwise
      (fun a b : String × Nat => decide (b.2 ≤ a.2) = true) := by
    apply List.pairwise_of_forall_mem_list
    intro a ha b hb
    have ha2 : a.2 = c := by simpa using (List.mem_filter.mp ha).2
    have hb2 : b.2 = c := by simpa using (List.mem_filter.mp hb).2
    simp [ha2, hb2]
  have hsub : List.Sublist (rc.filter (fun x => x.2 == c)) (sorted_states rc) :=
    List.sublist_mergeSort (sortedDescBy_trans (fun x : String × Nat => x.2))
      (sortedDescBy_total (fun x : String × Nat => x.2)) hpw (List.filter_sublist rc)
  have hself : (rc.filter (fun x => x.2 == c)).filter (fun x => x.2 == c) =
      rc.filter (fun x => x.2 == c) := by
    apply List.filter_eq_self.mpr
    intro a ha
    exact (List.mem_filter.mp ha).2
  have hsub2 : List.Sublist (rc.filter (fun x => x.2 == c))
      ((sorted_states rc).filter (fun x => x.2 == c)) := by
    have h := hsub.filter (fun x => x.2 == c)
    rwa [hself] at h
  have hlen : ((sorted_states rc).filter (fun x => x.2 == c)).length =
      (rc.filter (fun x => x.2 == c)).length := (hperm.filter _).length_eq
  exact (hsub2.eq_of_length hlen.symm).symm

/-- Claim C7: the display tags primary exactly at 0101, signature exactly
at 0100/1101, classical exactly at 0000/1111, and other elsewhere
(independently of rank, the tag being a function of the label only), and
lists the states by descending probability (count/total, the total being
positive so that the probabilities exist), ties broken by the original
insertion order (stable sort). -/
theorem C7_tags_and_order (rc : List (String × Nat)) (htot : 0 < totalCount rc) :
    (∀ s : String, significance s = Tag.primary ↔ s = "0101") ∧
    (∀ s : String, significance s = Tag.signature ↔ (s = "0100" ∨ s = "1101")) ∧
    (∀ s : String, significance s = Tag.classical ↔ (s = "0000" ∨ s = "1111")) ∧
    (∀ s : String, significance s = Tag.other ↔
      (¬s = "0101" ∧ ¬(s = "0100" ∨ s = "1101") ∧ ¬(s = "0000" ∨ s = "1111"))) ∧
    (sorted_states rc).Perm rc ∧
    (sorted_states rc).Pairwise (fun a b =>
      (b.2 : ℚ) / (totalCount rc : ℚ) ≤ (a.2 : ℚ) / (totalCount rc : ℚ)) ∧
    (∀ c : Nat, (sorted_states rc).filter (fun x => x.2 == c) = rc.filter (fun x => x.2 == c)) := by
  refine ⟨?_, ?_, ?_, ?_, List.mergeSort_perm rc _, ?_, sorted_states_stable rc⟩
  · intro s
    rw [significance]
    split_ifs with h1 h2 h3
    · subst h1
      decide
    · rcases h2 with rfl | rfl <;> decide
    · rcases h3 with rfl | rfl <;> decide
    · simp [h1]
  · intro s
    rw [significance]
    split_ifs with h1 h2 h3
    · subst h1
      decide
    · rcases h2 with rfl | rfl <;> decide
    · rcases h3 with rfl | rfl <;> decide
    · simp [h2]
  · intro s
    rw [significance]
    split_ifs with h1 h2 h3
    · subst h1
      decide
    · rcases h2 with rfl | rfl <;> decide
    · rcases h3 with rfl | rfl <;> decide
    · simp [h3]
  · intro s
    rw [significance]
    split_ifs with h1 h2 h3
    · subst h1
      decide
    · rcases h2 with rfl | rfl <;> decide
    · rcases h3 with rfl | rfl <;> decide
    · simp [h1, h2, h3]
  · have hpw : (sorted_states rc).Pairwise
        (fun a b : String × Nat => decide (b.2 ≤ a.2) = true) :=
      List.sorted_mergeSort (sortedDescBy_trans (fun x : String × Nat => x.2))
        (sortedDescBy_total (fun x : String × Nat => x.2)) rc
    apply List.Pairwise.imp ?_ hpw
    intro a b hab
    simp only [decide_eq_true_eq] at hab
    have htotQ : (0 : ℚ) < (totalCount rc : ℚ) := by exact_mod_cast htot
    exact (div_le_div_iff_of_pos_right htotQ).mpr (by exact_mod_cast hab)

/-- Claim C7 witness: the spec's own test vector, counts 40/10/50 with
total 100. -/
theorem C7_tags_and_order_witness :
    0 < totalCount [("0101", 40), ("0100", 10), ("1111", 50)] ∧
    (sorted_states [("0101", 40), ("0100", 10), ("1111", 50)]).Perm
      [("0101", 40), ("0100", 10), ("1111", 50)] ∧
    significance "0101" = Tag.primary ∧ significance "1111" = Tag.classical := by
  have h : 0 < totalCount [("0101", 40), ("0100", 10), ("1111", 50)] := by decide
  exact ⟨h, (C7_tags_and_order _ h).2.2.2.2.1,
    ((C7_tags_and_order _ h).1 "0101").mpr rfl,
    ((C7_tags_and_order _ h).2.2.1 "1111").mpr (Or.inr rfl)⟩

/-- The Python exceptions reachable in the normalization code paths:
`ZeroDivisionError` from `x / 0`, and the `ValueError` raised by unpacking
`zip(*sorted_data)` when `sorted_data` is empty. -/
inductive PyErr where
  | zeroDivisionErr : PyErr
  | valueErr : PyErr
  deriving DecidableEq, Repr

/-- Python's true division with the zero-denominator failure explicit. -/
def pydiv (a b : ℚ) : Except PyErr ℚ :=
  if b = 0 then .error .zeroDivisionErr else .ok (a / b)

/-- `raw_counts.get(state, 0)` over the association list. -/
def dictGetD (rc : List (String × Nat)) (s : String) (d : Nat) : Nat :=
  match rc.find? (fun x => x.1 == s) with
  | some x => x.2
  | none => d

/-- The data-preparation steps of `plot_state_distribution` (source lines
616-625): counts, total, the normalized probability list (note: an empty
comprehension performs no division), the probability-descending stable
sort, and the `zip(*sorted_data)` unpacking, which raises ValueError on an
empty sequence. -/
def plot_state_distribution (rc : List (String × Nat)) : Except PyErr (List (String × ℚ)) := do
  let counts := rc.map (fun x => x.2)
  let probabilities ← counts.mapM (fun c => pydiv (c : ℚ) (totalCount rc : ℚ))
  let sorted_data := sortedDescBy (fun x => x.2) ((rc.map (fun x => x.1)).zip probabilities)
  match sorted_data with
  | [] => .error .valueErr
  | l => .ok l

/-- The data-preparation steps of `plot_dashboard` (source lines 841-846):
identical to the state-distribution ones, keeping the top 8 states; the
`zip(*sorted_data[:8])` unpacking raises ValueError on an empty
sequence. -/
def plot_dashboard (rc : List (String × Nat)) : Except PyErr (List (String × ℚ)) := do
  let counts := rc.map (fun x => x.2)
  let probabilities ← counts.mapM (fun c => pydiv (c : ℚ) (totalCount rc : ℚ))
  let sorted_data := sortedDescBy (fun x => x.2) ((rc.map (fun x => x.1)).zip probabilities)
  match sorted_data.take 8 with
  | [] => .error .valueErr
  | l => .ok l

/-- The QHRF-signature breakdown of `plot_qhrf_signature` (source lines
685-690): the three signature states are each normalized by the total via
`raw_counts.get(state, 0) / total`, a division executed even when
raw_counts is empty (total 0). -/
def plot_qhrf_signature (rc : List (String × Nat)) : Except PyErr (List ℚ) :=
  ["0101", "0100", "1101"].mapM (fun s => pydiv ((dictGetD rc s 0 : Nat) : ℚ) (totalCount rc : ℚ))

/-- Claim C10 counterexample: for the record parsed from an object with no
raw_counts key (empty mapping), the state-distribution routine performs no
division at all — its probability comprehension is empty — and fails with
the ValueError of unpacking the empty sorted sequence, not with a
division-by-zero error, contradicting the claim that each of the three
routines divides by the zero total. -/
theorem C10_counterexample :
    (parseFields emptyExpData "exp2.json").raw_counts = [] ∧
    plot_state_distribution [] = Except.error PyErr.valueErr ∧
    Except.error PyErr.valueErr ≠
      (Except.error PyErr.zeroDivisionErr : Except PyErr (List (String × ℚ))) := by
  refine ⟨rfl, ?_, by simp⟩
  simp [plot_state_distribution, sortedDescBy, List.mapM.loop]

/-- Claim C10 (amended): from the successfully parsed record with an
absent raw_counts key, all three unguarded error branches are reachable —
the QHRF-signature routine executes the division by the zero total
(ZeroDivisionError), while the state-distribution and dashboard routines
never execute a division (their comprehensions are empty) and instead
raise ValueError unpacking the empty sorted sequence. -/
theorem C10_zero_total_errors :
    (parseFields emptyExpData "exp2.json").raw_counts = [] ∧
    plot_qhrf_signature [] = Except.error PyErr.zeroDivisionErr ∧
    plot_state_distribution [] = Except.error PyErr.valueErr ∧
    plot_dashboard [] = Except.error PyErr.valueErr := by
  refine ⟨rfl, rfl, ?_, ?_⟩
  · simp [plot_state_distribution, sortedDescBy, List.mapM.loop]
  · simp [plot_dashboard, sortedDescBy, List.mapM.loop]

/-- The state-distribution display loop of `display_experiment_data`
(source lines 503-517): when raw_counts is non-empty (the truthiness
check of line 503), compute the total, sort the items by count
descending, and emit for each state its probability `count / total`
(line 508, an unguarded division executed on every iteration) together
with its significance tag; the empty mapping displays no rows.  On a
non-empty mapping whose counts are all zero the first iteration raises
ZeroDivisionError, so no tag is assigned and no ordering is displayed. -/
def display_state_rows (rc : List (String × Nat)) : Except PyErr (List (String × ℚ × Tag)) :=
  if rc.isEmpty then .ok []
  else
    (sorted_states rc).mapM (fun x => do
      let prob ← pydiv (x.2 : ℚ) (totalCount rc : ℚ)
      pure (x.1, prob, significance x.1))

/-- Claim C7 counterexample: the non-empty mapping with the single entry
`("0101", 0)` has total 0, so the display loop raises ZeroDivisionError
at its first probability computation — it assigns no tags and lists no
states, refuting the claim's quantification over every non-empty
raw_counts mapping. -/
theorem C7_counterexample :
    ([("0101", 0)] : List (String × Nat)) ≠ [] ∧
    display_state_rows [("0101", 0)] = Except.error PyErr.zeroDivisionErr := by
  refine ⟨by simp, ?_⟩
  simp [display_state_rows, sorted_states, sortedDescBy, pydiv, totalCount, List.mapM.loop]
